import Mathlib

/- Shallow embedding of the clinical-trials dashboard (src/main.py) and
verification of the frozen claims about it.  Python/pandas string values are
modelled over `List Char`; missing values (NaN) are modelled by `Option`;
operations that can raise at runtime return `Except Unit`. -/

/-- The whitespace characters removed by Python str.strip() (ASCII range). -/
def pySpace (c : Char) : Bool :=
  c = ' ' || c = '\t' || c = '\n' || c = '\r' || c = '\x0b' || c = '\x0c'

/-- Remove leading and trailing characters satisfying `p`
(Python str.strip semantics). -/
def stripList (p : Char → Bool) (l : List Char) : List Char :=
  ((l.dropWhile p).reverse.dropWhile p).reverse

/-- Python value.strip(). -/
def pyStrip (s : String) : String := String.mk (stripList pySpace s.data)

/-- The quote characters removed by item.strip in main.py line 65. -/
def quoteChar (c : Char) : Bool := c = '\'' || c = '"'

/-- Python item.strip applied to the two quote characters (main.py line 65). -/
def pyStripQuotes (s : String) : String := String.mk (stripList quoteChar s.data)

/-- Python value.split on a comma, accumulator form: keeps empty pieces and
yields one (empty) piece on the empty string. -/
def splitCommaAux : List Char → List Char → List (List Char)
  | [], acc => [acc.reverse]
  | c :: t, acc =>
      if c = ',' then acc.reverse :: splitCommaAux t [] else splitCommaAux t (c :: acc)

/-- Python value.split(",") as used in main.py lines 65, 71 and 93. -/
def pySplitComma (s : String) : List String :=
  (splitCommaAux s.data []).map String.mk

deriving instance DecidableEq for Except

/-- A Python cell value as seen by parse_sub_category (main.py 43-75):
NaN/None, a string, an already-parsed list of strings, or some other
scalar (for example a number). -/
inductive CellValue where
  | na : CellValue
  | str : String → CellValue
  | list : List String → CellValue
  | other : CellValue
deriving DecidableEq, Repr

/-- Whether the cell holds an already-parsed list. -/
def isListCell : CellValue → Bool
  | .list _ => true
  | _ => false

/-- The string branches of parse_sub_category (main.py lines 51-75):
strip, empty check, bracketed-list handling (strip brackets, split on
commas, strip whitespace and quotes, drop empty items), comma handling
(split, strip, drop empty items), else a single stripped token.  The
operations inside the Python try block are total, so the except arm
(main.py 67-68) is unreachable and the function is total on strings. -/
def parseStr (value : String) : List String :=
  let v := pyStrip value
  if v = "" then []
  else if v.data.head? = some '[' && v.data.getLast? = some ']' then
    let inner := pyStrip (String.mk ((v.data.drop 1).dropLast))
    if inner = "" then []
    else ((pySplitComma inner).map (fun item => pyStripQuotes (pyStrip item))).filter
      (fun item => item ≠ "")
  else if v.data.contains ',' then
    ((pySplitComma v).map pyStrip).filter (fun item => item ≠ "")
  else [pyStrip v]

/-- parse_sub_category (main.py 43-75).  The guard pd.isna(value) on line 44
returns a boolean array when value is a Python list; taking the truth value
of that array raises ValueError unless the array has exactly one element
(NumPy rejects the truth value of empty and multi-element arrays), which is
modelled as Except.error.  A singleton list passes the guard (its single
entry is not NaN) and is returned as-is by line 47. -/
def parse_sub_category : CellValue → Except Unit (List String)
  | .na => .ok []
  | .list xs => if xs.length = 1 then .ok xs else .error ()
  | .str s => .ok (parseStr s)
  | .other => .ok []

/-- The token list parse_sub_category yields on a cell, with the raising
case mapped to the empty list (only used under hypotheses excluding it). -/
def tokensOf (v : CellValue) : List String :=
  match parse_sub_category v with
  | .ok L => L
  | .error _ => []

/-- One row of the trial table (one record of ncts_with_zipcode.csv),
restricted to the columns the claims are about.  Missing cells are `none`;
sub_category keeps the raw cell value fed to parse_sub_category. -/
structure TrialRecord where
  category : Option String
  sub_category : CellValue
  english_is_inclusion : Nat
  non_english_is_exclusion : Nat
  other_language_criteria : Option String
  first_zipcode : Option String
deriving DecidableEq, Repr

/-- A table row paired with its pandas index label (read_csv assigns an
ascending integer index which survives later filtering). -/
abbrev Row := Nat × TrialRecord

/-- The other_language_criteria column of a table. -/
def olcColumn (df : List Row) : List (Option String) :=
  df.map (fun p => p.2.other_language_criteria)

/-- Embedding of main.py line 93: other_language_criteria.dropna().str.split(",")
.explode().str.strip() — every token of every non-missing cell, in order.
value_counts over this series is the multiset of its elements, so the
series itself represents language_counts. -/
def allLanguages (cells : List (Option String)) : List String :=
  (cells.filterMap id).flatMap (fun s => (pySplitComma s).map pyStrip)

/-- count_other_languages (main.py 87-99): the triple
(total_with_other, total_languages, all_languages) where total_with_other
is notna().sum() — the number of PRESENT cells, including present empty
strings — total_languages is the length of the exploded token series, and
the token series stands for language_counts (its value_counts). -/
def count_other_languages (cells : List (Option String)) :
    Nat × Nat × List String :=
  (cells.countP (fun c => c.isSome), (allLanguages cells).length, allLanguages cells)

/-- Record 1 of the end-to-end scenario in the spec. -/
def scenarioRecord1 : TrialRecord :=
  { category := some "CVD", sub_category := .str "Hypertension, Stroke",
    english_is_inclusion := 1, non_english_is_exclusion := 0,
    other_language_criteria := some "Spanish", first_zipcode := none }

/-- Record 2 of the end-to-end scenario with its other_language_criteria
value "" taken literally as a present empty string in the DataFrame. -/
def scenarioRecord2Lit : TrialRecord :=
  { category := some "CVD", sub_category := .str "Hypertension",
    english_is_inclusion := 0, non_english_is_exclusion := 0,
    other_language_criteria := some "", first_zipcode := none }

/-- Record 2 of the end-to-end scenario as pd.read_csv would load it: an
empty CSV cell becomes NaN, i.e. a missing value. -/
def scenarioRecord2CSV : TrialRecord :=
  { category := some "CVD", sub_category := .str "Hypertension",
    english_is_inclusion := 0, non_english_is_exclusion := 0,
    other_language_criteria := none, first_zipcode := none }

/-- One row of the exploded sub-category view (main.py 270-272): the
sub_category cell replaced by a single parsed token.  pandas
DataFrame.explode emits one row with NaN (token = none) for a record whose
parsed list is empty, and one row per token otherwise. -/
structure ExplodedRow where
  idx : Nat
  trial : TrialRecord
  token : Option String
deriving DecidableEq, Repr

/-- pandas explode of one record's parsed token list. -/
def explodeTokens (i : Nat) (r : TrialRecord) (L : List String) :
    List ExplodedRow :=
  match L with
  | [] => [⟨i, r, none⟩]
  | _ => L.map (fun t => ⟨i, r, some t⟩)

/-- The exploded sub-category view (main.py 269-272):
filtered_df.sub_category.apply(parse_sub_category) then .explode().
If parse_sub_category raises on any cell the whole apply raises. -/
def explodeSubCat : List Row → Except Unit (List ExplodedRow)
  | [] => .ok []
  | p :: t => do
    let L ← parse_sub_category p.2.sub_category
    let rest ← explodeSubCat t
    .ok (explodeTokens p.1 p.2 L ++ rest)

/-- The exploded view as a total function, meaningful when every cell
parses without raising. -/
def explodedOf (df : List Row) : List ExplodedRow :=
  df.flatMap (fun p => explodeTokens p.1 p.2 (tokensOf p.2.sub_category))

/-- A record whose sub_category cell is the empty string, which
parse_sub_category maps to the empty token list. -/
def emptySubRecord : TrialRecord :=
  { category := some "CVD", sub_category := .str "",
    english_is_inclusion := 0, non_english_is_exclusion := 0,
    other_language_criteria := none, first_zipcode := none }

/-- First window of 5 consecutive digit characters, as found by
re.search on the pattern of five digits used in main.py line 113: the
leftmost position where five digits in a row start, regardless of whether
the digit run continues further. -/
def firstFiveDigits : List Char → Option (List Char)
  | [] => none
  | c :: rest =>
      if ((c :: rest).take 5).length = 5 ∧ ((c :: rest).take 5).all Char.isDigit
      then some ((c :: rest).take 5)
      else firstFiveDigits rest

/-- df.first_zipcode.astype(str).str.extract of the five-digit pattern
(main.py line 113): the first five consecutive digits, none when absent. -/
def extract5 (s : String) : Option String :=
  (firstFiveDigits s.data).map String.mk

/-- astype(str) renders a missing first_zipcode as the string "nan"
(which contains no digit run, so such records are dropped). -/
def zipStr (r : TrialRecord) : String := r.first_zipcode.getD "nan"

/-- Maximal runs of consecutive digits in a character list. -/
def digitRunsAux : List Char → List Char → List (List Char)
  | [], acc => if acc.isEmpty then [] else [acc.reverse]
  | c :: t, acc =>
      if c.isDigit then digitRunsAux t (c :: acc)
      else if acc.isEmpty then digitRunsAux t []
      else acc.reverse :: digitRunsAux t []

/-- Modelled from the spec (claim C4 wording): the first maximal run of
EXACTLY five digits in the string, none when no maximal digit run has
length exactly five. -/
def specExactFiveRunZip (s : String) : Option String :=
  (((digitRunsAux s.data []).filter (fun run => run.length = 5)).head?).map String.mk

/-- One row of the geo-enriched table (main.py 107-127): the record, its
cleaned zip and the looked-up state code (none when the geocoder has no
entry or no state code for the zip). -/
structure GeoRow where
  idx : Nat
  trial : TrialRecord
  zip_clean : String
  state_code : Option String
deriving DecidableEq, Repr

/-- load_geographical_data (main.py 107-127) with the geocoder as an
external capability g : zip → optional state code.  Records whose
first_zipcode has no five consecutive digits are dropped (dropna on
zip_clean, line 114); the zip-to-state dict built from the geocoder query
(entries without a state discarded, line 119) makes state_code = g zip,
missing when g has nothing. -/
def load_geographical_data (df : List Row) (g : String → Option String) :
    List GeoRow :=
  df.filterMap (fun p =>
    (extract5 (zipStr p.2)).map (fun z => ⟨p.1, p.2, z, g z⟩))

/-- State frequencies (main.py 395): value_counts over state_code, which
drops missing state codes, counted here for one state at a time. -/
def stateCount (geo : List GeoRow) (c : String) : Nat :=
  geo.countP (fun gr => gr.state_code = some c)

/-- The identifiers of geo rows whose state_code equals the selection
(main.py 437-438). -/
def stateTrialIds (geo : List GeoRow) (c : String) : List Nat :=
  (geo.filter (fun gr => gr.state_code = some c)).map (fun gr => gr.idx)

/-- The state selector (main.py 431-442): All States returns the base
table unchanged; otherwise the base rows whose index label lies in the
intersection with the matching geo identifiers
(original_df.loc[original_df.index.intersection(state_trial_ids)]; the
read_csv index is ascending, so loc over the sorted intersection keeps
the base table's row order, i.e. a filter of the base table). -/
def stateSelection (base : List Row) (geo : List GeoRow) (sel : String) :
    List Row :=
  if sel = "All States" then base
  else base.filter (fun p => (stateTrialIds geo sel).contains p.1)

/-- The category selector (main.py 170-173): All Categories returns the
table unchanged, otherwise the rows whose category equals the selection
(a missing category never equals a string). -/
def filterByCategory (df : List Row) (sel : String) : List Row :=
  if sel = "All Categories" then df
  else df.filter (fun p => p.2.category = some sel)

/-- pandas boolean-mask filtering df[df.col.apply(f)] where the per-row
predicate may raise: any raising row makes the whole filter raise. -/
def exceptFilter (p : TrialRecord → Except Unit Bool) :
    List Row → Except Unit (List Row)
  | [] => .ok []
  | r :: t => do
    let b ← p r.2
    let rest ← exceptFilter p t
    .ok (if b then r :: rest else rest)

/-- The row predicate of main.py line 300: the selected token is a member
of parse_sub_category of the RAW sub_category cell. -/
def rowMatchesSub (sel : String) (r : TrialRecord) : Except Unit Bool :=
  (parse_sub_category r.sub_category).map (fun L => L.contains sel)

/-- The sub-category selector (main.py 296-300): All Sub-Categories
returns the (un-exploded) input table; otherwise the original table is
filtered by re-parsing each raw sub_category cell. -/
def filterBySubCategory (df : List Row) (sel : String) :
    Except Unit (List Row) :=
  if sel = "All Sub-Categories" then .ok df
  else exceptFilter (rowMatchesSub sel) df

/-- A record whose sub_category parses to two copies of the same token. -/
def dupTokenRecord : TrialRecord :=
  { category := some "CVD", sub_category := .str "A, A",
    english_is_inclusion := 0, non_english_is_exclusion := 0,
    other_language_criteria := none, first_zipcode := none }

/-- Percent-of-selected-trials caption (main.py 194-195, 200-201,
210-211, 310-311, 316-317, 326-327, 472, 477, 486): computed only when
the selection size (the denominator) is positive, otherwise omitted. -/
def pctOfSelected (num den : Nat) : Option ℚ :=
  if 0 < den then some ((num : ℚ) / (den : ℚ) * 100) else none

/-- Average additional languages per trial (main.py 215-216, 331-332,
490-491): guarded by total_with_other > 0, displayed as N/A otherwise. -/
def avgLangs (totalLanguages totalWithOther : Nat) : Option ℚ :=
  if 0 < totalWithOther then some ((totalLanguages : ℚ) / (totalWithOther : ℚ))
  else none

/-- Per-language percentages (main.py 220-226, 336-342, 495-501):
language_counts.values divided by total_with_other, computed only inside
the guard that language_counts is non-empty. -/
def langPercentages (cells : List (Option String)) : Option (List ℚ) :=
  let c := count_other_languages cells
  if c.2.2 ≠ [] then
    some (c.2.2.dedup.map (fun t => ((c.2.2.count t : ℚ) / (c.1 : ℚ)) * 100))
  else none

/-- Percentage of all trials (main.py 446-452): total_trials over the
length of the full base table, computed only when total_trials > 0. -/
def statePct (base : List Row) (geo : List GeoRow) (sel : String) : Option ℚ :=
  if 0 < (stateSelection base geo sel).length then
    some (((stateSelection base geo sel).length : ℚ) / (base.length : ℚ) * 100)
  else none

/-- The three-record base table of the state-filter scenario: record 1
with a Beverly Hills zip, record 2 with no extractable zip, record 3 with
a Stanford zip. -/
def scenarioBase : List Row :=
  [(1, { category := some "CVD", sub_category := .str "Hypertension",
         english_is_inclusion := 1, non_english_is_exclusion := 0,
         other_language_criteria := none, first_zipcode := some "90210" }),
   (2, { category := some "CVD", sub_category := .str "Stroke",
         english_is_inclusion := 0, non_english_is_exclusion := 0,
         other_language_criteria := none, first_zipcode := some "abc" }),
   (3, { category := some "CVD", sub_category := .str "Hypertension",
         english_is_inclusion := 0, non_english_is_exclusion := 1,
         other_language_criteria := none, first_zipcode := some "94305" })]

/-- The scenario geocoder: both valid zips map to California. -/
def scenarioGeocoder (z : String) : Option String :=
  if z = "90210" then some "CA" else if z = "94305" then some "CA" else none

/-- The geo-enriched table of the state-filter scenario. -/
def scenarioGeo : List GeoRow :=
  load_geographical_data scenarioBase scenarioGeocoder


/-- Number of comma-separated pieces a present cell contributes to the
exploded language series (a missing cell contributes none). -/
def mentionCount (c : Option String) : Nat :=
  match c with
  | some s => (pySplitComma s).length
  | none => 0

/-- A record whose first_zipcode is a six-digit run. -/
def longZipRecord : TrialRecord :=
  { category := none, sub_category := .na, english_is_inclusion := 0,
    non_english_is_exclusion := 0, other_language_criteria := none,
    first_zipcode := some "123456" }

/- ## Helper lemmas about Python str.strip -/

theorem stripList_eq_rdropWhile (p : Char → Bool) (l : List Char) :
    stripList p l = List.rdropWhile p (l.dropWhile p) := rfl

theorem mem_dropWhile_of_not {p : Char → Bool} {l : List Char} {a : Char}
    (ha : a ∈ l) (hpa : ¬ p a) : a ∈ l.dropWhile p := by
  rw [← List.takeWhile_append_dropWhile (p := p) (l := l)] at ha
  rcases List.mem_append.mp ha with h | h
  · exact absurd (List.mem_takeWhile_imp h) hpa
  · exact h

theorem stripList_stripList_ne_nil {p : Char → Bool} {l : List Char}
    (h : stripList p l ≠ []) : stripList p (stripList p l) ≠ [] := by
  simp only [stripList_eq_rdropWhile] at h ⊢
  intro hnil
  have hlast := List.rdropWhile_last_not p (l.dropWhile p) h
  have hmem : (List.rdropWhile p (l.dropWhile p)).getLast h ∈
      List.rdropWhile p (l.dropWhile p) := List.getLast_mem h
  have hmem2 : (List.rdropWhile p (l.dropWhile p)).getLast h ∈
      (List.rdropWhile p (l.dropWhile p)).dropWhile p :=
    mem_dropWhile_of_not hmem hlast
  rw [List.rdropWhile_eq_nil_iff] at hnil
  exact hlast (hnil _ hmem2)

theorem string_mk_eq_empty_iff (l : List Char) : String.mk l = "" ↔ l = [] := by
  simp [String.ext_iff]

theorem pyStrip_ne_empty_iff (s : String) :
    pyStrip s ≠ "" ↔ stripList pySpace s.data ≠ [] := by
  simp [pyStrip, string_mk_eq_empty_iff]

theorem pyStrip_pyStrip_ne {s : String} (h : pyStrip s ≠ "") :
    pyStrip (pyStrip s) ≠ "" := by
  rw [pyStrip_ne_empty_iff] at h ⊢
  exact stripList_stripList_ne_nil h

theorem parseStr_no_empty (s : String) : "" ∉ parseStr s := by
  simp only [parseStr]
  split_ifs with h1 h2 h3 h4
  · simp
  · simp
  · intro hmem
    have := List.of_mem_filter hmem
    simp at this
  · intro hmem
    have := List.of_mem_filter hmem
    simp at this
  · simp only [List.mem_singleton]
    intro he
    exact pyStrip_pyStrip_ne h1 he.symm

/- ## Claim theorems -/

/-- C2 counterexample: the unbalanced bracket string "[A, B" does not
return the empty sequence; it falls into the comma branch and yields
["[A", "B"]. -/
theorem C2_counterexample :
    parse_sub_category (CellValue.str "[A, B") = Except.ok ["[A", "B"] ∧
    parse_sub_category (CellValue.str "[A, B") ≠ Except.ok ([] : List String) := by
  decide

/-- C2 (amended): parse_sub_category maps "A, B" to ["A","B"], "[A, B]" to
["A","B"], the empty string and missing values to [], "Single" to
["Single"]; a string with an unbalanced bracket is handled by the
comma/single-token branches instead of returning [] (for example "[A, B"
yields ["[A","B"]); the function never raises on missing, string or other
scalar inputs, but applying it to an already-parsed list raises unless the
list has exactly one element. -/
theorem C2_parse_cases :
    parse_sub_category CellValue.na = Except.ok [] ∧
    parse_sub_category (CellValue.str "") = Except.ok [] ∧
    parse_sub_category (CellValue.str "A, B") = Except.ok ["A", "B"] ∧
    parse_sub_category (CellValue.str "[A, B]") = Except.ok ["A", "B"] ∧
    parse_sub_category (CellValue.str "Single") = Except.ok ["Single"] ∧
    parse_sub_category (CellValue.str "[A, B") = Except.ok ["[A", "B"] ∧
    parse_sub_category (CellValue.list ["A", "B"]) = Except.error () ∧
    ∀ v : CellValue, isListCell v = true ∨ ∃ L, parse_sub_category v = Except.ok L := by
  refine ⟨by decide, by decide, by decide, by decide, by decide, by decide, by decide, ?_⟩
  intro v
  cases v with
  | list xs => exact Or.inl rfl
  | na => exact Or.inr ⟨[], rfl⟩
  | str s => exact Or.inr ⟨parseStr s, rfl⟩
  | other => exact Or.inr ⟨[], rfl⟩

/-- C9 counterexample: parse_sub_category "A, B" yields ["A","B"], but
re-applying parse_sub_category to that output raises (pd.isna of a
two-element list is a two-element boolean array, whose truth value raises
ValueError), so the composition is not the identity on the output. -/
theorem C9_counterexample :
    parse_sub_category (CellValue.str "A, B") = Except.ok ["A", "B"] ∧
    parse_sub_category (CellValue.list ["A", "B"]) = Except.error () := by
  decide

/-- C9 (amended): parse_sub_category is idempotent only on outputs with
exactly one token: when a first application returns a singleton list,
re-applying the function to that list returns it unchanged; re-application
to an output of any other length raises. -/
theorem C9_idem_singleton (v : CellValue) (L : List String)
    (_h : parse_sub_category v = Except.ok L) (h1 : L.length = 1) :
    parse_sub_category (CellValue.list L) = Except.ok L := by
  simp [parse_sub_category, h1]

/-- C9 witness: the amended idempotence at the concrete input "Single". -/
theorem C9_idem_singleton_witness :
    parse_sub_category (CellValue.list ["Single"]) = Except.ok ["Single"] :=
  C9_idem_singleton (CellValue.str "Single") ["Single"] (by decide) (by decide)

/-- C10: on every input that is not an already-parsed list, every token in
the sequence parse_sub_category returns is non-empty: the empty string is
never among the returned tokens. -/
theorem C10_tokens_nonempty (v : CellValue) (L : List String)
    (hv : isListCell v = false) (h : parse_sub_category v = Except.ok L) :
    "" ∉ L := by
  cases v with
  | na =>
      simp only [parse_sub_category, Except.ok.injEq] at h
      subst h; simp
  | str s =>
      simp only [parse_sub_category, Except.ok.injEq] at h
      subst h
      exact parseStr_no_empty s
  | list xs => simp [isListCell] at hv
  | other =>
      simp only [parse_sub_category, Except.ok.injEq] at h
      subst h; simp

/-- C10 witness: the theorem applied at the concrete input "A, B". -/
theorem C10_tokens_nonempty_witness : ("" : String) ∉ (["A", "B"] : List String) :=
  C10_tokens_nonempty (CellValue.str "A, B") ["A", "B"] (by decide) (by decide)

theorem allLanguages_cons_none (cells : List (Option String)) :
    allLanguages (none :: cells) = allLanguages cells := by
  simp [allLanguages]

theorem allLanguages_cons_some (s : String) (cells : List (Option String)) :
    allLanguages (some s :: cells) =
      (pySplitComma s).map pyStrip ++ allLanguages cells := by
  simp [allLanguages]

theorem allLanguages_length (cells : List (Option String)) :
    (allLanguages cells).length = (cells.map mentionCount).sum := by
  induction cells with
  | nil => rfl
  | cons c t ih =>
      cases c with
      | none => simpa [allLanguages_cons_none, mentionCount] using ih
      | some s => simp [allLanguages_cons_some, mentionCount, ih]

/-- C1 counterexample: on the literal two-record scenario where record 2
has other_language_criteria present but equal to "", count_other_languages
returns trials_with_other_language = 2 (notna counts the present empty
string), total 2 language tokens, and the token multiset ["Spanish", ""],
not the claimed (1, 1, Spanish only). -/
theorem C1_counterexample :
    count_other_languages (olcColumn [(1, scenarioRecord1), (2, scenarioRecord2Lit)]) =
      (2, 2, ["Spanish", ""]) ∧ (2 : Nat) ≠ 1 := by
  decide

/-- C1 (amended): count_other_languages returns trials_with_other_language
equal to the number of records whose other_language_criteria is PRESENT
(pandas notna), counting a present empty string as well;
total_language_mentions is the summed number of comma-separated pieces of
the present cells; and on the end-to-end scenario as the CSV loader
produces it (record 2's empty cell read as missing) the result is
trials_with_other_language = 1, total_language_mentions = 1 and
language_counts containing exactly one "Spanish" token. -/
theorem C1_language_summary (df : List Row) :
    (count_other_languages (olcColumn df)).1 =
      df.countP (fun p => p.2.other_language_criteria.isSome) ∧
    (count_other_languages (olcColumn df)).2.1 =
      (df.map (fun p => mentionCount p.2.other_language_criteria)).sum ∧
    count_other_languages (olcColumn [(1, scenarioRecord1), (2, scenarioRecord2CSV)]) =
      (1, 1, ["Spanish"]) := by
  refine ⟨?_, ?_, by decide⟩
  · show List.countP _ (df.map _) = _
    rw [List.countP_map]
    rfl
  · show (allLanguages (olcColumn df)).length = _
    rw [allLanguages_length, olcColumn, List.map_map]
    rfl

theorem parse_ok_of_not_list {v : CellValue} (hv : isListCell v = false) :
    parse_sub_category v = Except.ok (tokensOf v) := by
  cases v with
  | list xs => simp [isListCell] at hv
  | na => rfl
  | str s => rfl
  | other => rfl

theorem explodeTokens_length (i : Nat) (r : TrialRecord) (L : List String) :
    (explodeTokens i r L).length = max 1 L.length := by
  cases L with
  | nil => rfl
  | cons a t => simp [explodeTokens]

/-- C3 counterexample: a record whose sub_category parses to zero tokens
contributes ONE row to the exploded view (pandas explode emits a NaN row
for an empty list), so the exploded row count is 1 while the sum of token
counts is 0. -/
theorem C3_counterexample :
    parse_sub_category emptySubRecord.sub_category = Except.ok [] ∧
    explodeSubCat [(1, emptySubRecord)] = Except.ok (explodedOf [(1, emptySubRecord)]) ∧
    (explodedOf [(1, emptySubRecord)]).length = 1 ∧
    ([(1, emptySubRecord)].map (fun p => (tokensOf p.2.sub_category).length)).sum = 0 := by
  decide

/-- C3 (amended): when every sub_category cell parses without raising, the
exploded sub-category view has row count equal to the sum over records of
max 1 (number of parsed tokens): a record parsing to n ≥ 1 tokens
contributes n rows, and a record parsing to zero tokens contributes one
row whose sub_category is missing (not zero rows). -/
theorem C3_explode_rowcount (df : List Row)
    (h : ∀ p ∈ df, isListCell p.2.sub_category = false) :
    explodeSubCat df = Except.ok (explodedOf df) ∧
    (explodedOf df).length =
      (df.map (fun p => max 1 (tokensOf p.2.sub_category).length)).sum := by
  induction df with
  | nil => exact ⟨rfl, rfl⟩
  | cons p t ih =>
      have hp := h p (by simp)
      obtain ⟨ih1, ih2⟩ := ih (fun q hq => h q (by simp [hq]))
      constructor
      · have hstep : explodeSubCat (p :: t) =
            (parse_sub_category p.2.sub_category).bind (fun L =>
              (explodeSubCat t).bind (fun rest =>
                Except.ok (explodeTokens p.1 p.2 L ++ rest))) := rfl
        rw [hstep, parse_ok_of_not_list hp, ih1]
        rfl
      · simp [explodedOf, explodeTokens_length]
        simp [explodedOf] at ih2
        omega

/-- C3 witness: the amended row-count law at the concrete two-record
scenario table (whose exploded view has 3 rows). -/
theorem C3_explode_rowcount_witness :
    explodeSubCat [(1, scenarioRecord1), (2, scenarioRecord2CSV)] =
      Except.ok (explodedOf [(1, scenarioRecord1), (2, scenarioRecord2CSV)]) ∧
    (explodedOf [(1, scenarioRecord1), (2, scenarioRecord2CSV)]).length =
      ([(1, scenarioRecord1), (2, scenarioRecord2CSV)].map
        (fun p => max 1 (tokensOf p.2.sub_category).length)).sum :=
  C3_explode_rowcount [(1, scenarioRecord1), (2, scenarioRecord2CSV)] (by decide)

theorem except_bind_ok {ε α β : Type} (a : α) (f : α → Except ε β) :
    (Except.ok a : Except ε α).bind f = f a := rfl

theorem load_geo_cons_none {p : Row} {t : List Row} {g : String → Option String}
    (hz : extract5 (zipStr p.2) = none) :
    load_geographical_data (p :: t) g = load_geographical_data t g := by
  simp [load_geographical_data, List.filterMap_cons, hz]

theorem load_geo_cons_some {p : Row} {t : List Row} {g : String → Option String}
    {z : String} (hz : extract5 (zipStr p.2) = some z) :
    load_geographical_data (p :: t) g =
      ⟨p.1, p.2, z, g z⟩ :: load_geographical_data t g := by
  simp [load_geographical_data, List.filterMap_cons, hz]

/-- C4 counterexample: on first_zipcode "123456" there is no maximal run of
exactly five digits (the only run has six), so under the claim's reading the
record has no zip_clean and is dropped; the code's extraction instead finds
the window "12345" and keeps the record in the geo table. -/
theorem C4_counterexample :
    specExactFiveRunZip "123456" = none ∧
    extract5 "123456" = some "12345" ∧
    (load_geographical_data [(1, longZipRecord)] (fun _ => none)).length = 1 := by
  decide

/-- C4 (amended): load_geo_enriched derives zip_clean as the FIRST FIVE
CONSECUTIVE DIGITS found in first_zipcode (the first five digits of a
longer run when the run exceeds five); records with no five consecutive
digits are dropped from the geo table only; rows whose cleaned zip has no
geocoder entry (or whose entry has no state code) keep no state_code,
remain in the geo table, and are excluded from every state-grouped count:
the count for a state c is exactly the number of records whose extracted
zip geocodes to c. -/
theorem C4_geo_enrichment (df : List Row) (g : String → Option String)
    (c : String) :
    (load_geographical_data df g).length =
      df.countP (fun p => (extract5 (zipStr p.2)).isSome) ∧
    stateCount (load_geographical_data df g) c =
      df.countP (fun p => (extract5 (zipStr p.2)).bind g = some c) ∧
    (load_geographical_data df g).countP (fun gr => gr.state_code = none) =
      df.countP (fun p => (extract5 (zipStr p.2)).isSome &&
        ((extract5 (zipStr p.2)).bind g = none)) := by
  induction df with
  | nil => exact ⟨rfl, rfl, rfl⟩
  | cons p t ih =>
      obtain ⟨ih1, ih2, ih3⟩ := ih
      cases hz : extract5 (zipStr p.2) with
      | none =>
          rw [load_geo_cons_none hz]
          refine ⟨?_, ?_, ?_⟩
          · rw [ih1, List.countP_cons]
            simp [hz]
          · rw [stateCount] at ih2 ⊢
            rw [ih2, List.countP_cons]
            simp [hz]
          · rw [ih3, List.countP_cons]
            simp [hz]
      | some z =>
          rw [load_geo_cons_some hz]
          refine ⟨?_, ?_, ?_⟩
          · rw [List.length_cons, ih1, List.countP_cons]
            simp [hz]
          · rw [stateCount] at ih2 ⊢
            rw [List.countP_cons, ih2, List.countP_cons]
            simp [hz]
          · rw [List.countP_cons, ih3, List.countP_cons]
            simp [hz]

/-- C5: with a specific state code, the state selection is the base table
filtered to the identifiers of geo-enriched rows whose state_code matches
(the geo identifiers intersected with the base identifiers); in the
scenario where the base table has identifiers 1, 2, 3 and the geo table
retains only 1 and 3 (both California), filtering by CA yields exactly the
records 1 and 3, excluding record 2. -/
theorem C5_state_filter (base : List Row) (geo : List GeoRow) (c : String)
    (hc : c ≠ "All States") :
    stateSelection base geo c =
      base.filter (fun p => (stateTrialIds geo c).contains p.1) ∧
    scenarioGeo.map (fun gr => gr.idx) = [1, 3] ∧
    stateSelection scenarioBase scenarioGeo "CA" =
      scenarioBase.filter (fun p => p.1 == 1 || p.1 == 3) := by
  refine ⟨?_, by decide, by decide⟩
  rw [stateSelection, if_neg hc]

/-- C5 witness: the theorem applied at the concrete scenario tables with
the state code CA. -/
theorem C5_state_filter_witness :
    (stateSelection scenarioBase scenarioGeo "CA" =
      scenarioBase.filter (fun p => (stateTrialIds scenarioGeo "CA").contains p.1)) ∧
    scenarioGeo.map (fun gr => gr.idx) = [1, 3] ∧
    stateSelection scenarioBase scenarioGeo "CA" =
      scenarioBase.filter (fun p => p.1 == 1 || p.1 == 3) :=
  C5_state_filter scenarioBase scenarioGeo "CA" (by decide)

theorem exceptFilter_ok (sel : String) (df : List Row)
    (h : ∀ p ∈ df, isListCell p.2.sub_category = false) :
    exceptFilter (rowMatchesSub sel) df =
      Except.ok (df.filter (fun p => (tokensOf p.2.sub_category).contains sel)) := by
  induction df with
  | nil => rfl
  | cons p t ih =>
      have hp := h p (by simp)
      have hstep : exceptFilter (rowMatchesSub sel) (p :: t) =
          (rowMatchesSub sel p.2).bind (fun b =>
            (exceptFilter (rowMatchesSub sel) t).bind (fun rest =>
              Except.ok (if b then p :: rest else rest))) := rfl
      have hrow : rowMatchesSub sel p.2 =
          Except.ok ((tokensOf p.2.sub_category).contains sel) := by
        rw [rowMatchesSub, parse_ok_of_not_list hp]
        rfl
      rw [hstep, hrow, ih (fun q hq => h q (by simp [hq]))]
      rw [except_bind_ok, except_bind_ok]
      by_cases hmem : (tokensOf p.2.sub_category).contains sel <;>
        simp [List.filter_cons, hmem]

/-- C6: with a specific token, the sub-category filter returns the rows of
the original (non-exploded) table whose raw sub_category re-parses to a
token list containing the selection; as the result is a row filter of the
original table, a record whose parse yields several matching tokens (for
example "A, A" filtered by "A") appears exactly once. -/
theorem C6_subcat_filter (df : List Row) (sel : String)
    (hsel : sel ≠ "All Sub-Categories")
    (h : ∀ p ∈ df, isListCell p.2.sub_category = false) :
    filterBySubCategory df sel =
      Except.ok (df.filter (fun p => (tokensOf p.2.sub_category).contains sel)) ∧
    tokensOf dupTokenRecord.sub_category = ["A", "A"] ∧
    filterBySubCategory [(1, dupTokenRecord)] "A" = Except.ok [(1, dupTokenRecord)] := by
  refine ⟨?_, by decide, by decide⟩
  rw [filterBySubCategory, if_neg hsel]
  exact exceptFilter_ok sel df h

/-- C6 witness: the theorem applied at the concrete one-record table whose
record parses to two copies of the matching token. -/
theorem C6_subcat_filter_witness :
    (filterBySubCategory [(1, dupTokenRecord)] "A" =
      Except.ok ([(1, dupTokenRecord)].filter
        (fun p => (tokensOf p.2.sub_category).contains "A"))) ∧
    tokensOf dupTokenRecord.sub_category = ["A", "A"] ∧
    filterBySubCategory [(1, dupTokenRecord)] "A" = Except.ok [(1, dupTokenRecord)] :=
  C6_subcat_filter [(1, dupTokenRecord)] "A" (by decide) (by decide)

/-- C7: selecting the ALL sentinel at any of the three selectors is the
identity transform: All Categories returns the table unchanged, All
Sub-Categories returns the (un-exploded) input table unchanged without
touching any cell, and All States returns the base table unchanged — same
rows, same order, nothing dropped or reordered. -/
theorem C7_all_identity (df base : List Row) (geo : List GeoRow) :
    filterByCategory df "All Categories" = df ∧
    filterBySubCategory df "All Sub-Categories" = Except.ok df ∧
    stateSelection base geo "All States" = base := by
  refine ⟨?_, ?_, ?_⟩ <;>
    simp [filterByCategory, filterBySubCategory, stateSelection]

theorem countP_isSome_pos_of_allLanguages_ne
    {cells : List (Option String)} (h : allLanguages cells ≠ []) :
    0 < cells.countP (fun c => c.isSome) := by
  induction cells with
  | nil => simp [allLanguages] at h
  | cons c t ih =>
      cases c with
      | none =>
          rw [allLanguages_cons_none] at h
          simpa [List.countP_cons] using ih h
      | some s => simp [List.countP_cons]

theorem stateSelection_length_le (base : List Row) (geo : List GeoRow)
    (sel : String) : (stateSelection base geo sel).length ≤ base.length := by
  rw [stateSelection]
  split_ifs
  · exact le_rfl
  · exact List.length_filter_le _ _

/-- C8: no percentage or average computation in the system can divide by
zero, on any input table: each ratio is either not computed (its guard
fails and a not-applicable result is substituted) or its denominator is
positive — the percent-of-selected captions and the average guard their
denominator directly, the per-language percentages are guarded by
non-emptiness of language_counts which forces a positive
trials-with-other-language denominator, and the percentage-of-all-trials
guard total_trials > 0 forces the base table (its denominator) to be
non-empty because the selection is never larger than the base table. -/
theorem C8_no_div_by_zero (num den totalLanguages totalWithOther : Nat)
    (cells : List (Option String)) (base : List Row) (geo : List GeoRow)
    (sel : String) :
    (pctOfSelected num den = none ∨ 0 < den) ∧
    (avgLangs totalLanguages totalWithOther = none ∨ 0 < totalWithOther) ∧
    (langPercentages cells = none ∨ 0 < (count_other_languages cells).1) ∧
    (statePct base geo sel = none ∨ 0 < base.length) := by
  refine ⟨?_, ?_, ?_, ?_⟩
  · by_cases h : 0 < den
    · exact Or.inr h
    · exact Or.inl (by simp [pctOfSelected, h])
  · by_cases h : 0 < totalWithOther
    · exact Or.inr h
    · exact Or.inl (by simp [avgLangs, h])
  · by_cases h : allLanguages cells = []
    · exact Or.inl (by simp [langPercentages, count_other_languages, h])
    · exact Or.inr (countP_isSome_pos_of_allLanguages_ne h)
  · by_cases h : 0 < (stateSelection base geo sel).length
    · exact Or.inr (lt_of_lt_of_le h (stateSelection_length_le base geo sel))
    · exact Or.inl (by simp [statePct, h])
